import Mathlib

/-!
Verification of the trade-simulation core of the lightgbm-stock-predictor
repository: a shallow embedding in Lean 4 of `src/backtester.py`,
`src/signal_generator.py`, `src/config.py` and the walk-forward scheduling
loop of `src/model.py`.

Python floats are modelled by exact rationals; dates are modelled by
integers (the backtester only stores and forwards them).
-/

namespace StockBacktest

/-- Python truncating conversion `int(x)`: rounds toward zero. -/
def pyInt (x : ℚ) : ℤ := if 0 ≤ x then ⌊x⌋ else ⌈x⌉

/-- Python float floor division `a // b` (mathematical floor of the quotient).
In Python `b = 0` raises ZeroDivisionError; here `a / 0 = 0` so the result is
`0`, a case excluded by the positivity hypotheses of every theorem below. -/
def pyFloorDiv (a b : ℚ) : ℚ := (⌊a / b⌋ : ℤ)

/-- Python `x or default` applied to an optional float argument: `None`
(absent) and `0` are falsy and are replaced by the default. -/
def pyOrDefault (x : Option ℚ) (d : ℚ) : ℚ :=
  match x with
  | none => d
  | some v => if v = 0 then d else v

/-- `BACKTEST_CONFIG` of `src/config.py`. -/
def configInitialCash : ℚ := 100000

/-- `BACKTEST_CONFIG['transaction_fee']` of `src/config.py`. -/
def configTransactionFee : ℚ := 1 / 1000

/-- `BACKTEST_CONFIG['slippage']` of `src/config.py`. -/
def configSlippage : ℚ := 1 / 1000

/-- The three configuration attributes a `Backtester` instance carries
(`src/backtester.py` lines 20-22); they are set in `__init__` and never
mutated afterwards. -/
structure BacktestConfig where
  initial_cash : ℚ
  transaction_fee : ℚ
  slippage : ℚ
deriving DecidableEq, Repr

/-- `Backtester.__init__` (`src/backtester.py` lines 10-22): each argument
defaults through Python `or`, so an explicit `0` is replaced by the config
default exactly like an omitted argument. -/
def backtester_init (initial_cash transaction_fee slippage : Option ℚ) :
    BacktestConfig :=
  { initial_cash := pyOrDefault initial_cash configInitialCash
    transaction_fee := pyOrDefault transaction_fee configTransactionFee
    slippage := pyOrDefault slippage configSlippage }

/-- One entry of `self.trade_log` (`src/backtester.py` lines 65-75 for BUY,
lines 90-100 for SELL).  BUY entries carry cost fields, SELL entries carry
revenue fields, exactly as the two dict literals in the source do. -/
inductive TradeRecord where
  | buy (date : ℤ) (price quantity cost fee total_cost cash_after
      position_after : ℚ)
  | sell (date : ℤ) (price quantity revenue fee total_revenue cash_after
      position_after : ℚ)
deriving DecidableEq, Repr

/-- `trade.get('total_revenue', 0)`: SELL records hold the key, BUY records
fall back to the default `0`. -/
def TradeRecord.get_total_revenue : TradeRecord → ℚ
  | .buy _ _ _ _ _ _ _ _ => 0
  | .sell _ _ _ _ _ tr _ _ => tr

/-- `trade.get('total_cost', 0)`: BUY records hold the key, SELL records
fall back to the default `0`. -/
def TradeRecord.get_total_cost : TradeRecord → ℚ
  | .buy _ _ _ _ _ tc _ _ => tc
  | .sell _ _ _ _ _ _ _ _ => 0

/-- `trade['action'] in ['BUY', 'SELL']` (`src/backtester.py` line 208):
true for every record the log ever receives. -/
def TradeRecord.action_is_buy_or_sell : TradeRecord → Bool
  | .buy _ _ _ _ _ _ _ _ => true
  | .sell _ _ _ _ _ _ _ _ => true

/-- One entry of `self.portfolio_history`
(`src/backtester.py` lines 114-121). -/
structure Snapshot where
  date : ℤ
  cash : ℚ
  position : ℚ
  position_value : ℚ
  total_value : ℚ
  price : ℚ
deriving DecidableEq, Repr

/-- The mutable portfolio state of a `Backtester`
(`src/backtester.py` lines 25-30). -/
structure Portfolio where
  cash : ℚ
  position : ℚ
  position_value : ℚ
  total_value : ℚ
  trade_log : List TradeRecord
  portfolio_history : List Snapshot
deriving DecidableEq, Repr

/-- The freshly reset portfolio state: `__init__` lines 25-30, identical to
the reset at the start of `run_backtest` (lines 136-141). -/
def resetPortfolio (cfg : BacktestConfig) : Portfolio :=
  { cash := cfg.initial_cash
    position := 0
    position_value := 0
    total_value := cfg.initial_cash
    trade_log := []
    portfolio_history := [] }

/-- `Backtester.execute_trade` (`src/backtester.py` lines 32-100),
transcribed branch for branch.  The `elif` chain becomes nested `if`s; a
guard that fails leaves the state unchanged, as falling through the Python
conditionals does. -/
def execute_trade (cfg : BacktestConfig) (p : Portfolio) (date : ℤ)
    (signal : ℤ) (price confidence position_size : ℚ) : Portfolio :=
  let available_cash := p.cash * position_size * confidence
  let available_position := p.position * position_size * confidence
  let buy_price := price * (1 + cfg.slippage)
  let sell_price := price * (1 - cfg.slippage)
  if signal = 1 ∧ available_cash > 0 then
    let quantity := pyFloorDiv available_cash buy_price
    if quantity > 0 then
      let cost := quantity * buy_price
      let fee := cost * cfg.transaction_fee
      let total_cost := cost + fee
      if total_cost ≤ p.cash then
        { p with
          cash := p.cash - total_cost
          position := p.position + quantity
          position_value := (p.position + quantity) * price
          trade_log := p.trade_log ++
            [TradeRecord.buy date buy_price quantity cost fee total_cost
              (p.cash - total_cost) (p.position + quantity)] }
      else p
    else p
  else if signal = -1 ∧ p.position > 0 then
    let quantity := min ((pyInt available_position : ℚ)) p.position
    if quantity > 0 then
      let revenue := quantity * sell_price
      let fee := revenue * cfg.transaction_fee
      let total_revenue := revenue - fee
      { p with
        cash := p.cash + total_revenue
        position := p.position - quantity
        position_value := (p.position - quantity) * price
        trade_log := p.trade_log ++
          [TradeRecord.sell date sell_price quantity revenue fee
            total_revenue (p.cash + total_revenue) (p.position - quantity)] }
    else p
  else p

/-- `Backtester.update_portfolio_value` (`src/backtester.py` lines
102-121): recomputes the position and total values from the passed-in
market price and appends a snapshot. -/
def update_portfolio_value (p : Portfolio) (date : ℤ) (price : ℚ) :
    Portfolio :=
  { p with
    position_value := p.position * price
    total_value := p.cash + p.position * price
    portfolio_history := p.portfolio_history ++
      [{ date := date
         cash := p.cash
         position := p.position
         position_value := p.position * price
         total_value := p.cash + p.position * price
         price := price }] }

/-- One row of the signal DataFrame fed to `run_backtest`.  `signal` is
`none` when the stored float is NaN (`np.isnan(signal)` is then true);
a missing `signal` column yields the `row.get` default `some 0`. -/
structure Row where
  date : ℤ
  close : ℚ
  signal : Option ℚ
  confidence : ℚ
  position_size : ℚ
deriving DecidableEq, Repr

/-- The `if signal != 0 and not np.isnan(signal)` trade dispatch of the
`run_backtest` loop (`src/backtester.py` lines 151-158): a NaN signal
(`none`) or a zero signal skips `execute_trade`; otherwise the signal is
truncated with `int(...)` and the trade runs at the row's close price. -/
def tradeStep (cfg : BacktestConfig) (p : Portfolio) (row : Row) :
    Portfolio :=
  match row.signal with
  | none => p
  | some s =>
    if s ≠ 0 then
      execute_trade cfg p row.date (pyInt s) row.close row.confidence
        row.position_size
    else p

/-- The body of the `for i, row in df.iterrows()` loop of `run_backtest`
(`src/backtester.py` lines 144-161): trade when the signal is nonzero and
not NaN, then record the portfolio value at the row's close price. -/
def runStep (cfg : BacktestConfig) (p : Portfolio) (row : Row) : Portfolio :=
  update_portfolio_value (tradeStep cfg p row) row.date row.close

/-- `Backtester.run_backtest` (`src/backtester.py` lines 123-167): the
prior mutable state `_prev` of the instance is discarded by the reset of
lines 136-141, then the rows are processed in input order. -/
def run_backtest (cfg : BacktestConfig) (_prev : Portfolio)
    (rows : List Row) : Portfolio :=
  rows.foldl (runStep cfg) (resetPortfolio cfg)

/-- The Sharpe-ratio step of `Backtester.calculate_performance`
(`src/backtester.py` line 199): `annual_return / volatility if
volatility > 0 else 0`.  The two floats it consumes (line 196's annualized
return and line 198's `std() * sqrt(252)` volatility, a nonnegative number
when defined and NaN — which compares false against `0` — on a
single-snapshot history) enter here as parameters. -/
def sharpe_ratio (annual_return volatility : ℚ) : ℚ :=
  if volatility > 0 then annual_return / volatility else 0

/-- `winning_trades` of `Backtester.calculate_performance`
(`src/backtester.py` line 207): trades whose `total_revenue` (default 0)
is positive or whose `total_cost` (default 0) is negative. -/
def winning_trades (log : List TradeRecord) : ℕ :=
  log.countP fun t =>
    decide (t.get_total_revenue > 0) || decide (t.get_total_cost < 0)

/-- `total_trades` of `Backtester.calculate_performance`
(`src/backtester.py` line 208): trades whose action is BUY or SELL. -/
def total_trades (log : List TradeRecord) : ℕ :=
  (log.filter fun t => t.action_is_buy_or_sell).length

/-- `win_rate` of `Backtester.calculate_performance`
(`src/backtester.py` line 209). -/
def win_rate (log : List TradeRecord) : ℚ :=
  if total_trades log > 0 then
    (winning_trades log : ℚ) / (total_trades log : ℚ)
  else 0

/-- A possibly-NaN Python float, as stored in a prediction array.  Any
`<` or `>` comparison against a NaN operand is false. -/
inductive PyFloat where
  | nan
  | val (q : ℚ)
deriving DecidableEq, Repr

/-- The per-prediction body of `generate_signals_with_confidence`
(`src/signal_generator.py` lines 45-56).  The `.nan` branch is the
transcription of both IEEE comparisons in the source evaluating to false,
which lands NaN in the final `else`. -/
def signal_with_confidence (buy_threshold sell_threshold : ℚ)
    (pred : PyFloat) : ℤ × ℚ :=
  match pred with
  | .nan => (0, 0)
  | .val p =>
    if p > buy_threshold then (1, min (p / (buy_threshold * 2)) 1)
    else if p < sell_threshold then (-1, min (|p| / (|sell_threshold| * 2)) 1)
    else (0, 0)

/-- `generate_signals_with_confidence` (`src/signal_generator.py` lines
30-58): maps the per-prediction rule over the prediction array. -/
def generate_signals_with_confidence (predictions : List PyFloat)
    (buy_threshold sell_threshold : ℚ) : List (ℤ × ℚ) :=
  predictions.map (signal_with_confidence buy_threshold sell_threshold)

/-- The `while start_idx + train_period + test_period <= len(df)` loop of
`walk_forward_training` (`src/model.py` lines 241-289), keeping the data
windows it slices: `train_df = df.iloc[start:start+train]` and
`test_df = df.iloc[start+train:start+train+test]`, with
`start_idx += test_period` at the end of each pass.  The `0 < test`
conjunct only pins down termination: with `test_period = 0` the Python
loop never terminates, so no finite behaviour is modelled there. -/
def wfLoop (df : List ℚ) (train test start : ℕ) :
    List (List ℚ × List ℚ) :=
  if _h : 0 < test ∧ start + train + test ≤ df.length then
    ((df.drop start).take train, (df.drop (start + train)).take test) ::
      wfLoop df train test (start + test)
  else []
termination_by df.length - start
decreasing_by
  omega

/-- `walk_forward_training` (`src/model.py` lines 223-291), restricted to
the scheduling skeleton: which (train, test) row windows the loop visits,
in order.  Model training, prediction and metric computation consume each
window without affecting the schedule, so they are outside the model. -/
def walk_forward_training (df : List ℚ) (train test : ℕ) :
    List (List ℚ × List ℚ) :=
  wfLoop df train test 0

/-- A SELL record whose net revenue after fee is positive. -/
def is_profitable_sell : TradeRecord → Bool
  | .sell _ _ _ _ _ tr _ _ => decide (0 < tr)
  | .buy _ _ _ _ _ _ _ _ => false

/-- A BUY record whose recorded total cost is negative (the code's
notion of a profitable BUY-closing event). -/
def is_profitable_buy_closing : TradeRecord → Bool
  | .buy _ _ _ _ _ tc _ _ => decide (tc < 0)
  | .sell _ _ _ _ _ _ _ _ => false

/-! ## Helper lemmas -/

theorem execute_trade_nonneg (cfg : BacktestConfig) (p : Portfolio)
    (date signal : ℤ) (price confidence position_size : ℚ)
    (hfee1 : cfg.transaction_fee ≤ 1)
    (hslip : cfg.slippage ≤ 1) (hprice : 0 ≤ price)
    (hcash : 0 ≤ p.cash) (hpos : 0 ≤ p.position) :
    0 ≤ (execute_trade cfg p date signal price confidence
      position_size).cash ∧
    0 ≤ (execute_trade cfg p date signal price confidence
      position_size).position := by
  simp only [execute_trade]
  split_ifs with h1 h2 h3 h4 h5
  · refine ⟨by dsimp; linarith, by dsimp; linarith⟩
  · exact ⟨hcash, hpos⟩
  · exact ⟨hcash, hpos⟩
  · have hq : min ((pyInt (p.position * position_size * confidence) : ℚ))
        p.position ≤ p.position := min_le_right _ _
    have hsp : 0 ≤ price * (1 - cfg.slippage) :=
      mul_nonneg hprice (by linarith)
    have hrev : 0 ≤ min ((pyInt (p.position * position_size *
        confidence) : ℚ)) p.position * (price * (1 - cfg.slippage)) :=
      mul_nonneg (le_of_lt h5) hsp
    refine ⟨by dsimp; nlinarith, by dsimp; linarith⟩
  · exact ⟨hcash, hpos⟩
  · exact ⟨hcash, hpos⟩

theorem execute_trade_history (cfg : BacktestConfig) (p : Portfolio)
    (date signal : ℤ) (price confidence position_size : ℚ) :
    (execute_trade cfg p date signal price confidence
      position_size).portfolio_history = p.portfolio_history := by
  simp only [execute_trade]
  split_ifs <;> rfl

theorem tradeStep_nonneg (cfg : BacktestConfig) (p : Portfolio) (r : Row)
    (hfee1 : cfg.transaction_fee ≤ 1) (hslip : cfg.slippage ≤ 1)
    (hprice : 0 ≤ r.close) (hcash : 0 ≤ p.cash) (hpos : 0 ≤ p.position) :
    0 ≤ (tradeStep cfg p r).cash ∧ 0 ≤ (tradeStep cfg p r).position := by
  rw [tradeStep]
  cases r.signal with
  | none => exact ⟨hcash, hpos⟩
  | some s =>
    dsimp only
    split_ifs with h
    · exact execute_trade_nonneg cfg p r.date (pyInt s) r.close
        r.confidence r.position_size hfee1 hslip hprice hcash hpos
    · exact ⟨hcash, hpos⟩

theorem tradeStep_history (cfg : BacktestConfig) (p : Portfolio) (r : Row) :
    (tradeStep cfg p r).portfolio_history = p.portfolio_history := by
  rw [tradeStep]
  cases r.signal with
  | none => rfl
  | some s =>
    dsimp only
    split_ifs with h
    · exact execute_trade_history cfg p r.date (pyInt s) r.close
        r.confidence r.position_size
    · rfl

theorem runStep_preserves_nonneg (cfg : BacktestConfig)
    (hfee1 : cfg.transaction_fee ≤ 1) (hslip : cfg.slippage ≤ 1)
    (p : Portfolio) (r : Row)
    (hp : 0 ≤ p.cash ∧ 0 ≤ p.position ∧
      ∀ s ∈ p.portfolio_history, 0 ≤ s.cash ∧ 0 ≤ s.position)
    (hr : 0 ≤ r.close) :
    0 ≤ (runStep cfg p r).cash ∧ 0 ≤ (runStep cfg p r).position ∧
      ∀ s ∈ (runStep cfg p r).portfolio_history,
        0 ≤ s.cash ∧ 0 ≤ s.position := by
  obtain ⟨hc, hpos, hhist⟩ := hp
  obtain ⟨hc1, hpos1⟩ := tradeStep_nonneg cfg p r hfee1 hslip hr hc hpos
  refine ⟨hc1, hpos1, ?_⟩
  intro s hs
  simp only [runStep, update_portfolio_value, List.mem_append,
    List.mem_singleton] at hs
  rcases hs with hs | rfl
  · exact hhist s (by rwa [tradeStep_history] at hs)
  · exact ⟨hc1, hpos1⟩

theorem runStep_history_map_date (cfg : BacktestConfig) (p : Portfolio)
    (r : Row) :
    (runStep cfg p r).portfolio_history.map Snapshot.date =
      p.portfolio_history.map Snapshot.date ++ [r.date] := by
  simp [runStep, update_portfolio_value, tradeStep_history]

theorem runStep_history_map_price (cfg : BacktestConfig) (p : Portfolio)
    (r : Row) :
    (runStep cfg p r).portfolio_history.map Snapshot.price =
      p.portfolio_history.map Snapshot.price ++ [r.close] := by
  simp [runStep, update_portfolio_value, tradeStep_history]

theorem foldl_runStep_preserves (cfg : BacktestConfig)
    (P : Portfolio → Prop) (C : Row → Prop)
    (hstep : ∀ p r, P p → C r → P (runStep cfg p r)) :
    ∀ (rows : List Row) (p : Portfolio), P p → (∀ r ∈ rows, C r) →
      P (rows.foldl (runStep cfg) p)
  | [], _, hp, _ => hp
  | r :: rs, p, hp, hc => by
    have ih := foldl_runStep_preserves cfg P C hstep rs
      (runStep cfg p r) (hstep p r hp (hc r (by simp)))
      (fun x hx => hc x (by simp [hx]))
    simpa using ih

theorem runStep_snapshot_values (cfg : BacktestConfig) (p : Portfolio)
    (r : Row)
    (hp : ∀ s ∈ p.portfolio_history,
      s.total_value = s.cash + s.position * s.price ∧
      s.position_value = s.position * s.price) :
    ∀ s ∈ (runStep cfg p r).portfolio_history,
      s.total_value = s.cash + s.position * s.price ∧
      s.position_value = s.position * s.price := by
  intro s hs
  simp only [runStep, update_portfolio_value, List.mem_append,
    List.mem_singleton] at hs
  rcases hs with hs | rfl
  · exact hp s (by rwa [tradeStep_history] at hs)
  · exact ⟨rfl, rfl⟩

theorem foldl_runStep_dates (cfg : BacktestConfig) :
    ∀ (rows : List Row) (p : Portfolio),
      (rows.foldl (runStep cfg) p).portfolio_history.map Snapshot.date =
        p.portfolio_history.map Snapshot.date ++ rows.map Row.date
  | [], p => by simp
  | r :: rs, p => by
    rw [List.foldl_cons, foldl_runStep_dates cfg rs,
      runStep_history_map_date]
    simp

theorem foldl_runStep_prices (cfg : BacktestConfig) :
    ∀ (rows : List Row) (p : Portfolio),
      (rows.foldl (runStep cfg) p).portfolio_history.map Snapshot.price =
        p.portfolio_history.map Snapshot.price ++ rows.map Row.close
  | [], p => by simp
  | r :: rs, p => by
    rw [List.foldl_cons, foldl_runStep_prices cfg rs,
      runStep_history_map_price]
    simp

/-! ## Claims -/

/-- Claim C1: every backtest run starts from nonnegative initial cash and
zero position (the reset state of `run_backtest`), and — for a fee rate
and slippage of at most 1 and nonnegative prices — after every executed
trade the portfolio keeps `cash ≥ 0` and `position ≥ 0`: a BUY is applied
only when its total cost fits in the cash balance and a SELL quantity is
capped at the current position, so no trade drives cash negative or opens
a short position.  Stated over all snapshots (each one is recorded right
after the trade dispatch of its row) and over the final state. -/
theorem no_negative_cash_no_short (cfg : BacktestConfig)
    (prev : Portfolio) (rows : List Row)
    (hinit : 0 ≤ cfg.initial_cash)
    (hfee1 : cfg.transaction_fee ≤ 1) (hslip : cfg.slippage ≤ 1)
    (hrows : ∀ r ∈ rows, 0 ≤ r.close) :
    (0 ≤ (run_backtest cfg prev rows).cash ∧
      0 ≤ (run_backtest cfg prev rows).position) ∧
    ∀ s ∈ (run_backtest cfg prev rows).portfolio_history,
      0 ≤ s.cash ∧ 0 ≤ s.position := by
  have h := foldl_runStep_preserves cfg
    (fun p => 0 ≤ p.cash ∧ 0 ≤ p.position ∧
      ∀ s ∈ p.portfolio_history, 0 ≤ s.cash ∧ 0 ≤ s.position)
    (fun r => 0 ≤ r.close)
    (fun p r hp hr => runStep_preserves_nonneg cfg hfee1 hslip p r hp hr)
    rows (resetPortfolio cfg)
    ⟨hinit, le_refl 0, by simp [resetPortfolio]⟩ hrows
  exact ⟨⟨h.1, h.2.1⟩, h.2.2⟩

theorem no_negative_cash_no_short_witness :
    (0 ≤ (run_backtest ⟨100000, 1, 1⟩ (resetPortfolio ⟨100000, 1, 1⟩)
        [⟨1, 100, some 1, 1, 1⟩]).cash ∧
      0 ≤ (run_backtest ⟨100000, 1, 1⟩ (resetPortfolio ⟨100000, 1, 1⟩)
        [⟨1, 100, some 1, 1, 1⟩]).position) ∧
    ∀ s ∈ (run_backtest ⟨100000, 1, 1⟩ (resetPortfolio ⟨100000, 1, 1⟩)
        [⟨1, 100, some 1, 1, 1⟩]).portfolio_history,
      0 ≤ s.cash ∧ 0 ≤ s.position :=
  no_negative_cash_no_short ⟨100000, 1, 1⟩
    (resetPortfolio ⟨100000, 1, 1⟩) [⟨1, 100, some 1, 1, 1⟩]
    (by decide) (by decide) (by decide) (by decide)

/-- Claim C2: every snapshot appended by `update_portfolio_value` records
`total_value = cash + position * price` and
`position_value = position * price`, where `price` is the unadjusted
market price passed in; consequently every snapshot of every run
satisfies the identity on its own recorded fields, and the prices the
snapshots record are exactly the rows' close (market) prices, never the
slippage-adjusted fill prices. -/
theorem snapshot_total_value_identity :
    (∀ (p : Portfolio) (date : ℤ) (price : ℚ),
      (update_portfolio_value p date price).portfolio_history =
        p.portfolio_history ++
          [{ date := date, cash := p.cash, position := p.position,
             position_value := p.position * price,
             total_value := p.cash + p.position * price,
             price := price }]) ∧
    (∀ (cfg : BacktestConfig) (prev : Portfolio) (rows : List Row),
      ∀ s ∈ (run_backtest cfg prev rows).portfolio_history,
        s.total_value = s.cash + s.position * s.price ∧
        s.position_value = s.position * s.price) ∧
    (∀ (cfg : BacktestConfig) (prev : Portfolio) (rows : List Row),
      (run_backtest cfg prev rows).portfolio_history.map Snapshot.price =
        rows.map Row.close) := by
  refine ⟨?_, ?_, ?_⟩
  · intro p date price
    rfl
  · intro cfg prev rows
    exact foldl_runStep_preserves cfg
      (fun p => ∀ s ∈ p.portfolio_history,
        s.total_value = s.cash + s.position * s.price ∧
        s.position_value = s.position * s.price)
      (fun _ => True)
      (fun p r hp _ => runStep_snapshot_values cfg p r hp)
      rows (resetPortfolio cfg) (by simp [resetPortfolio])
      (fun _ _ => trivial)
  · intro cfg prev rows
    rw [run_backtest, foldl_runStep_prices]
    simp [resetPortfolio]

theorem snapshot_total_value_identity_witness :
    ({ date := 1, cash := 100000, position := 0, position_value := 0,
       total_value := 100000, price := 100 } : Snapshot).total_value =
      ({ date := 1, cash := 100000, position := 0, position_value := 0,
         total_value := 100000, price := 100 } : Snapshot).cash +
        ({ date := 1, cash := 100000, position := 0, position_value := 0,
           total_value := 100000, price := 100 } : Snapshot).position *
          ({ date := 1, cash := 100000, position := 0, position_value := 0,
             total_value := 100000, price := 100 } : Snapshot).price ∧
    ({ date := 1, cash := 100000, position := 0, position_value := 0,
       total_value := 100000, price := 100 } : Snapshot).position_value =
      ({ date := 1, cash := 100000, position := 0, position_value := 0,
         total_value := 100000, price := 100 } : Snapshot).position *
        ({ date := 1, cash := 100000, position := 0, position_value := 0,
           total_value := 100000, price := 100 } : Snapshot).price :=
  snapshot_total_value_identity.2.1 ⟨100000, 1, 1⟩
    (resetPortfolio ⟨100000, 1, 1⟩) [⟨1, 100, some 0, 1, 1⟩]
    { date := 1, cash := 100000, position := 0, position_value := 0,
      total_value := 100000, price := 100 }
    (by simp [run_backtest, List.foldl, runStep, tradeStep,
      update_portfolio_value, resetPortfolio])

/-- Claim C3 is false as stated: fed rows whose timestamps decrease
(date 2 then date 1), `run_backtest` raises no error and produces a full
two-snapshot history — the input for the Performance Report — keeping the
rows in their original out-of-order sequence. -/
theorem out_of_order_rows_processed_asis :
    (run_backtest ⟨100000, 1/1000, 1/1000⟩
        (resetPortfolio ⟨100000, 1/1000, 1/1000⟩)
        [⟨2, 100, some 0, 1, 1/10⟩, ⟨1, 100, some 0, 1, 1/10⟩]
      ).portfolio_history.map Snapshot.date = [2, 1] := by
  decide

/-- Claim C3 (amended): `run_backtest` performs no timestamp-ordering
check.  For every input — monotonic or not — it processes the rows once
in input order, records exactly one snapshot per row carrying the row's
own date, never reorders, and never raises a fatal input error. -/
theorem run_backtest_ignores_row_order (cfg : BacktestConfig)
    (prev : Portfolio) (rows : List Row) :
    (run_backtest cfg prev rows).portfolio_history.map Snapshot.date =
      rows.map Row.date := by
  rw [run_backtest, foldl_runStep_dates]
  simp [resetPortfolio]

/-- Claim C4 is false as stated: a Backtester configured through the
constructor as `Backtester(100000, 0, 0)` has the explicit zeros replaced
by the config defaults (fee 0.001, slippage 0.001), so the single BUY at
price 100 with confidence 1 and position_size 0.1 fills at 100.1 and buys
99 shares leaving cash 90080.1901 — not 100 shares leaving cash 90000. -/
theorem constructor_zero_fee_scenario_fails :
    (execute_trade (backtester_init (some 100000) (some 0) (some 0))
        (resetPortfolio (backtester_init (some 100000) (some 0) (some 0)))
        1 1 100 1 (1/10)).position = 99 ∧
    (execute_trade (backtester_init (some 100000) (some 0) (some 0))
        (resetPortfolio (backtester_init (some 100000) (some 0) (some 0)))
        1 1 100 1 (1/10)).cash = 900801901 / 10000 ∧
    ¬ ((execute_trade (backtester_init (some 100000) (some 0) (some 0))
        (resetPortfolio (backtester_init (some 100000) (some 0) (some 0)))
        1 1 100 1 (1/10)).cash = 90000 ∧
      (execute_trade (backtester_init (some 100000) (some 0) (some 0))
        (resetPortfolio (backtester_init (some 100000) (some 0) (some 0)))
        1 1 100 1 (1/10)).position = 100) := by
  norm_num [execute_trade, backtester_init, pyOrDefault, resetPortfolio,
    pyFloorDiv, configInitialCash, configTransactionFee, configSlippage]

/-- Claim C4 (amended): with effective attributes
`transaction_fee = 0` and `slippage = 0` (set directly on the instance —
the constructor turns explicit zeros into the 0.001 defaults), a single
BUY at price 100 with confidence 1 and position_size 0.1 from
initial_cash 100000 buys exactly 100 shares, leaving cash 90000 and
position 100; through the constructor the same signal buys 99 shares at
fill price 100.1, leaving cash 90080.1901. -/
theorem scenario_a_buy_quantities :
    ((execute_trade ⟨100000, 0, 0⟩ (resetPortfolio ⟨100000, 0, 0⟩)
        1 1 100 1 (1/10)).cash = 90000 ∧
      (execute_trade ⟨100000, 0, 0⟩ (resetPortfolio ⟨100000, 0, 0⟩)
        1 1 100 1 (1/10)).position = 100) ∧
    ((execute_trade (backtester_init (some 100000) (some 0) (some 0))
        (resetPortfolio (backtester_init (some 100000) (some 0) (some 0)))
        1 1 100 1 (1/10)).cash = 900801901 / 10000 ∧
      (execute_trade (backtester_init (some 100000) (some 0) (some 0))
        (resetPortfolio (backtester_init (some 100000) (some 0) (some 0)))
        1 1 100 1 (1/10)).position = 99) := by
  norm_num [execute_trade, backtester_init, pyOrDefault, resetPortfolio,
    pyFloorDiv, configInitialCash, configTransactionFee, configSlippage]

/-- Claim C5: for every prediction, `generate_signals_with_confidence`
emits `(1, min(p / (2·buy_threshold), 1))` when `p > buy_threshold`,
`(-1, min(|p| / (2·|sell_threshold|), 1))` when the first test fails and
`p < sell_threshold`, and `(0, 0)` otherwise; a NaN prediction fails both
IEEE comparisons and yields `(0, 0)`, so NaN never reaches execution. -/
theorem signal_confidence_cases (bt st p : ℚ) :
    (p > bt → signal_with_confidence bt st (.val p) =
      (1, min (p / (bt * 2)) 1)) ∧
    (¬ p > bt → p < st → signal_with_confidence bt st (.val p) =
      (-1, min (|p| / (|st| * 2)) 1)) ∧
    (¬ p > bt → ¬ p < st → signal_with_confidence bt st (.val p) =
      (0, 0)) ∧
    signal_with_confidence bt st PyFloat.nan = (0, 0) := by
  refine ⟨fun h => ?_, fun h1 h2 => ?_, fun h1 h2 => ?_, rfl⟩
  · simp [signal_with_confidence, h]
  · simp [signal_with_confidence, h1, h2]
  · simp [signal_with_confidence, h1, h2]

theorem signal_confidence_cases_witness :
    signal_with_confidence 1 (-1) (PyFloat.val 3) =
      (1, min (3 / (1 * 2)) 1) :=
  (signal_confidence_cases 1 (-1) 3).1 (by decide)

theorem wfLoop_unfold (df : List ℚ) (train test start : ℕ)
    (ht : 0 < test) :
    wfLoop df train test start =
      if start + train + test ≤ df.length then
        ((df.drop start).take train,
          (df.drop (start + train)).take test) ::
          wfLoop df train test (start + test)
      else [] := by
  rw [wfLoop]
  by_cases h : start + train + test ≤ df.length
  · rw [dif_pos ⟨ht, h⟩, if_pos h]
  · rw [dif_neg (by tauto), if_neg h]

/-- Claim C6: the walk-forward loop iterates exactly while
`start + train + test ≤ len(df)`, each pass taking rows
`[start, start+train)` as the train window and
`[start+train, start+train+test)` as the test window and advancing
`start` by `test`; a 1400-row series with train 1000 / test 200 yields
exactly the two periods starting at 0 and 200 with disjoint 200-row test
windows (rows 1000-1199 and 1200-1399), and a 50-row series yields the
empty list without error. -/
theorem walk_forward_schedule :
    (∀ (df : List ℚ) (train test start : ℕ), 0 < test →
      wfLoop df train test start =
        if start + train + test ≤ df.length then
          ((df.drop start).take train,
            (df.drop (start + train)).take test) ::
            wfLoop df train test (start + test)
        else []) ∧
    (∀ df : List ℚ, df.length = 1400 →
      walk_forward_training df 1000 200 =
        [(df.take 1000, (df.drop 1000).take 200),
         ((df.drop 200).take 1000, (df.drop 1200).take 200)]) ∧
    (∀ df : List ℚ, df.length = 50 →
      walk_forward_training df 1000 200 = []) := by
  refine ⟨fun df train test start ht => wfLoop_unfold df train test start ht,
    fun df h => ?_, fun df h => ?_⟩
  · rw [walk_forward_training,
      wfLoop_unfold df 1000 200 0 (by norm_num), if_pos (by omega),
      wfLoop_unfold df 1000 200 200 (by norm_num), if_pos (by omega),
      wfLoop_unfold df 1000 200 400 (by norm_num), if_neg (by omega)]
    norm_num
  · rw [walk_forward_training,
      wfLoop_unfold df 1000 200 0 (by norm_num), if_neg (by omega)]

theorem walk_forward_schedule_witness :
    walk_forward_training (List.replicate 1400 (0:ℚ)) 1000 200 =
      [((List.replicate 1400 (0:ℚ)).take 1000,
        ((List.replicate 1400 (0:ℚ)).drop 1000).take 200),
       (((List.replicate 1400 (0:ℚ)).drop 200).take 1000,
        ((List.replicate 1400 (0:ℚ)).drop 1200).take 200)] :=
  walk_forward_schedule.2.1 (List.replicate 1400 (0:ℚ))
    (List.length_replicate 1400 0)

/-- Claim C7: the Sharpe-ratio step of `calculate_performance` divides
the annualized return by the volatility only under the `volatility > 0`
guard and returns exactly 0 otherwise — in particular 0 when the
volatility is 0 (constant portfolio series) — so the reported value is
always a plain (finite, non-NaN) number. -/
theorem sharpe_ratio_guard (annual volatility : ℚ) :
    (0 < volatility →
      sharpe_ratio annual volatility = annual / volatility) ∧
    (volatility = 0 → sharpe_ratio annual volatility = 0) ∧
    (¬ 0 < volatility → sharpe_ratio annual volatility = 0) := by
  refine ⟨fun h => if_pos h, fun h => by simp [sharpe_ratio, h],
    fun h => if_neg h⟩

theorem sharpe_ratio_guard_witness :
    sharpe_ratio 3 2 = 3 / 2 ∧ sharpe_ratio 3 0 = 0 :=
  ⟨(sharpe_ratio_guard 3 2).1 (by decide),
    (sharpe_ratio_guard 3 0).2.1 rfl⟩

/-- Claim C8: `run_backtest` is deterministic and replay-idempotent: its
result is a function of the configuration and the input rows only — the
reset of lines 136-141 discards every piece of prior mutable state — so
two runs of the same input on the same instance (the second starting from
whatever state the first left behind) produce identical trade logs and
identical snapshot histories. -/
theorem run_backtest_replay_idempotent (cfg : BacktestConfig)
    (prev1 prev2 : Portfolio) (rows : List Row) :
    run_backtest cfg prev1 rows = run_backtest cfg prev2 rows ∧
    (run_backtest cfg (run_backtest cfg prev1 rows) rows).trade_log =
      (run_backtest cfg prev1 rows).trade_log ∧
    (run_backtest cfg (run_backtest cfg prev1 rows) rows
      ).portfolio_history =
      (run_backtest cfg prev1 rows).portfolio_history :=
  ⟨rfl, rfl, rfl⟩

theorem winning_trades_split (log : List TradeRecord) :
    winning_trades log =
      log.countP is_profitable_sell +
        log.countP is_profitable_buy_closing := by
  induction log with
  | nil => rfl
  | cons t ts ih =>
    rw [winning_trades, List.countP_cons, List.countP_cons,
      List.countP_cons, ← winning_trades, ih]
    cases t <;>
      simp [is_profitable_sell, is_profitable_buy_closing,
        TradeRecord.get_total_revenue, TradeRecord.get_total_cost,
        lt_self_iff_false] <;>
      (try split_ifs) <;> omega

theorem total_trades_eq_length (log : List TradeRecord) :
    total_trades log = log.length := by
  induction log with
  | nil => rfl
  | cons t ts ih =>
    cases t <;>
      simp [total_trades, TradeRecord.action_is_buy_or_sell,
        List.filter_cons] at ih ⊢ <;>
      exact ih

/-- Claim C9: `calculate_performance` reports the win rate as the number
of SELL trades with positive net revenue after fee plus the number of
BUY records logged with negative total cost (the code's profitable
BUY-closing events), divided by the number of executed BUY and SELL
trades, and reports exactly 0 when the trade log is empty. -/
theorem win_rate_formula (log : List TradeRecord) :
    (total_trades log ≠ 0 →
      win_rate log =
        ((log.countP is_profitable_sell +
          log.countP is_profitable_buy_closing : ℕ) : ℚ) /
          (total_trades log : ℚ)) ∧
    (log = [] → win_rate log = 0) := by
  constructor
  · intro h
    rw [win_rate, if_pos (Nat.pos_of_ne_zero h), winning_trades_split]
  · intro h
    subst h
    rfl

theorem win_rate_formula_witness :
    win_rate [TradeRecord.sell 1 100 10 1000 1 999 1000 0] =
      (([TradeRecord.sell 1 100 10 1000 1 999 1000 0].countP
          is_profitable_sell +
        [TradeRecord.sell 1 100 10 1000 1 999 1000 0].countP
          is_profitable_buy_closing : ℕ) : ℚ) /
        (total_trades [TradeRecord.sell 1 100 10 1000 1 999 1000 0] : ℚ) :=
  (win_rate_formula [TradeRecord.sell 1 100 10 1000 1 999 1000 0]).1
    (by decide)

/-- Claim C10: the constructor defaults use Python `or`, so an explicit
zero passed for initial_cash, transaction_fee or slippage is silently
replaced by the config default (100000, 0.001, 0.001 respectively); in
particular no choice of constructor arguments yields a fee-free or
slippage-free backtester. -/
theorem constructor_or_swallows_zero (ic tf sl : Option ℚ) :
    (backtester_init ic (some 0) sl).transaction_fee = 1/1000 ∧
    (backtester_init ic tf (some 0)).slippage = 1/1000 ∧
    (backtester_init (some 0) tf sl).initial_cash = 100000 ∧
    (backtester_init ic tf sl).transaction_fee ≠ 0 ∧
    (backtester_init ic tf sl).slippage ≠ 0 := by
  refine ⟨by simp [backtester_init, pyOrDefault, configTransactionFee],
    by simp [backtester_init, pyOrDefault, configSlippage],
    by simp [backtester_init, pyOrDefault, configInitialCash],
    ?_, ?_⟩
  · rw [backtester_init]
    cases tf with
    | none => norm_num [pyOrDefault, configTransactionFee]
    | some v =>
      dsimp [pyOrDefault]
      split_ifs with h
      · norm_num [configTransactionFee]
      · exact h
  · rw [backtester_init]
    cases sl with
    | none => norm_num [pyOrDefault, configSlippage]
    | some v =>
      dsimp [pyOrDefault]
      split_ifs with h
      · norm_num [configSlippage]
      · exact h

end StockBacktest
